import Mathlib

/-!
Shallow embedding of the Cloudflare worker `src/src/index.js` of the Ges
repository (the most-evolved worker variant, which the claim sources cite).

Conventions of the embedding:
* JavaScript strings-or-null header values are `Option String`; JS truthiness
  of such a value (`null` and `""` are falsy) is `jsTruthyStr`.
* `Date.now()` readings are supplied externally: state-machine operations take
  an explicit `now : Nat` argument, and the retry loop takes a `nowAt` stream
  giving the clock value observed during attempt `i`.
* `Math.random()` draws are supplied externally as a stream `rand : Nat → ℚ`
  of values in `[0, 1)`; JS number arithmetic is modelled exactly over `ℚ`.
* The upstream `fetch` is supplied externally as a stream
  `outcomes : Nat → UpstreamOutcome` giving the outcome of the i-th outbound
  call attempt; `JSON.parse` of the upstream body is part of that outcome.
-/

namespace Ges

/-! ### Configuration constants (`CONFIG`, index.js lines 5-17) -/

namespace CONFIG

def MAX_RETRIES : Nat := 2

def INITIAL_RETRY_DELAY : Nat := 200

def MAX_RETRY_DELAY : Nat := 2000

def CIRCUIT_BREAKER_FAILURE_THRESHOLD : Nat := 5

def CIRCUIT_BREAKER_RESET_TIMEOUT : Nat := 30000

def CIRCUIT_BREAKER_HALF_OPEN_SUCCESS_THRESHOLD : Nat := 1

def MAX_REQUEST_BODY_SIZE : Nat := 1024 * 10

def VALID_CONTENT_TYPES : List String := ["application/json"]

def ALLOWED_ORIGIN : String := "https://yuichi-aragi.github.io"

end CONFIG

/-- JS truthiness of a string-or-null value: `null` and `""` are falsy. -/
def jsTruthyStr (o : Option String) : Bool :=
  match o with
  | some s => s != ""
  | none => false

/-- JS `o || d` on a string-or-null value `o` with string default `d`. -/
def jsOrStr (o : Option String) (d : String) : String :=
  match o with
  | some s => if s = "" then d else s
  | none => d

/-- The per-response CORS header set (`BASE_CORS` plus the computed
`Access-Control-Allow-Origin`), index.js lines 20-34. -/
structure CorsHeaders where
  allowOrigin : String
  allowMethods : String
  allowHeaders : String
  maxAge : String
  vary : String
deriving DecidableEq

/-- `buildCorsHeaders(origin)`, index.js lines 28-34: the allowed origin is
echoed only when it is exactly the configured origin, otherwise the
configured origin is used (`origin === CONFIG.ALLOWED_ORIGIN ? origin :
CONFIG.ALLOWED_ORIGIN`).  The argument is a string-or-null header value. -/
def buildCorsHeaders (origin : Option String) : CorsHeaders :=
  let allowedOrigin :=
    match origin with
    | some o => if o = CONFIG.ALLOWED_ORIGIN then o else CONFIG.ALLOWED_ORIGIN
    | none => CONFIG.ALLOWED_ORIGIN
  { allowOrigin := allowedOrigin
    allowMethods := "POST, OPTIONS"
    allowHeaders := "Content-Type"
    maxAge := "86400"
    vary := "Origin" }

/-! ### Circuit breaker (index.js lines 36-100) -/

inductive CBState where
  | CLOSED
  | OPEN
  | HALF_OPEN
deriving DecidableEq

/-- The mutable fields of the `CircuitBreaker` class. Timestamps are `Nat`
milliseconds. -/
structure CircuitBreaker where
  state : CBState
  failureCount : Nat
  successCount : Nat
  lastFailureTime : Nat
  openUntil : Nat
deriving DecidableEq

/-- `reset()` (also the constructor), index.js lines 42-48. -/
def CircuitBreaker.reset : CircuitBreaker :=
  { state := .CLOSED, failureCount := 0, successCount := 0,
    lastFailureTime := 0, openUntil := 0 }

/-- `recordFailure()`, index.js lines 50-62; `now` is the `Date.now()`
reading during the call. -/
def CircuitBreaker.recordFailure (cb : CircuitBreaker) (now : Nat) : CircuitBreaker :=
  let cb1 := { cb with failureCount := cb.failureCount + 1, lastFailureTime := now }
  if cb1.state = .HALF_OPEN then
    { cb1 with state := .OPEN, openUntil := now + CONFIG.CIRCUIT_BREAKER_RESET_TIMEOUT }
  else if cb1.failureCount ≥ CONFIG.CIRCUIT_BREAKER_FAILURE_THRESHOLD then
    { cb1 with state := .OPEN, openUntil := now + CONFIG.CIRCUIT_BREAKER_RESET_TIMEOUT }
  else
    cb1

/-- `recordSuccess()`, index.js lines 64-75. -/
def CircuitBreaker.recordSuccess (cb : CircuitBreaker) : CircuitBreaker :=
  if cb.state = .HALF_OPEN then
    let sc := cb.successCount + 1
    if sc ≥ CONFIG.CIRCUIT_BREAKER_HALF_OPEN_SUCCESS_THRESHOLD then
      CircuitBreaker.reset
    else
      { cb with successCount := sc }
  else
    { cb with failureCount := 0 }

/-- `isAvailable()`, index.js lines 77-95: returns the boolean answer and the
(possibly mutated) breaker — while OPEN with the window elapsed it
transitions to HALF_OPEN, resetting `successCount`. -/
def CircuitBreaker.isAvailable (cb : CircuitBreaker) (now : Nat) : Bool × CircuitBreaker :=
  match cb.state with
  | .CLOSED => (true, cb)
  | .OPEN =>
    if now ≥ cb.openUntil then
      (true, { cb with state := .HALF_OPEN, successCount := 0 })
    else
      (false, cb)
  | .HALF_OPEN => (true, cb)

/-! ### Exponential backoff with jitter (`backoffDelay`, index.js lines 195-201) -/

/-- `backoffDelay(attempt)` with the `Math.random()` draw made explicit as
`rand`: `capped + Math.floor(rand * (capped * 0.3))` where
`capped = min(INITIAL_RETRY_DELAY * 2^attempt, MAX_RETRY_DELAY)`.
JS number arithmetic is modelled exactly over `ℚ` (`0.3 = 3/10`). -/
def backoffDelay (attempt : Nat) (rand : ℚ) : ℚ :=
  let base : ℚ := (CONFIG.INITIAL_RETRY_DELAY : ℚ) * 2 ^ attempt
  let capped : ℚ := min base (CONFIG.MAX_RETRY_DELAY : ℚ)
  let jitter : ℚ := (Int.floor (rand * (capped * (3 / 10))) : ℤ)
  capped + jitter

/-! ### Upstream call with retry, timeout and breaker awareness
(`fetchWithRetry`, index.js lines 211-282) -/

/-- The parsed JSON body of an upstream token response, restricted to the
fields the worker inspects (`tokenData.error`, `tokenData.error_description`).
A body whose parse lacks the field is `none` in that field; a body that is
not valid JSON is represented by `Option TokenData = none` at the use site. -/
structure TokenData where
  error : Option String
  error_description : Option String
deriving DecidableEq

/-- Outcome of one outbound `fetch` attempt: either an HTTP response with a
status and a body (whose JSON parse is `some td`, or `none` when
`response.json()` would throw), or a thrown transport error
(`isTimeout` records whether it is an abort/timeout error, which
`handleAuth` distinguishes by name/message). -/
inductive UpstreamOutcome where
  | resp (status : Nat) (body : Option TokenData)
  | netErr (isTimeout : Bool)
deriving DecidableEq

/-- `response.ok`: status in the inclusive range 200-299. -/
def responseOk (status : Nat) : Bool :=
  200 ≤ status && status < 300

/-- How `fetchWithRetry` terminates: by returning a response, by throwing
`CircuitOpenError`, or by propagating the last transport error. -/
inductive FetchResult where
  | returned (status : Nat) (body : Option TokenData)
  | circuitOpenErr
  | threwErr (isTimeout : Bool)
deriving DecidableEq

/-- Observable trace of one `fetchWithRetry` call: its result, the number of
outbound fetch calls made, the list of backoff delays slept (in order), and
the final circuit-breaker state. -/
structure FetchTrace where
  result : FetchResult
  calls : Nat
  sleeps : List ℚ
  breaker : CircuitBreaker
deriving DecidableEq

/-- The body of the `for (attempt = 0; attempt <= MAX_RETRIES; attempt++)`
loop of `fetchWithRetry` (index.js lines 222-278).  `fuel` bounds the number
of remaining iterations (called with `MAX_RETRIES + 1` so the fuel-exhausted
case, which models the unreachable `throw lastError` at line 281, is never
taken).  Each clock reading during iteration `attempt` is `nowAt attempt`,
and the `Math.random()` draw of its backoff sleep is `rand attempt`. -/
def fetchLoop (outcomes : Nat → UpstreamOutcome) (nowAt : Nat → Nat) (rand : Nat → ℚ) :
    Nat → Nat → CircuitBreaker → FetchTrace
  | 0, _, cb => ⟨.threwErr false, 0, [], cb⟩
  | fuel + 1, attempt, cb =>
    let avail := cb.isAvailable (nowAt attempt)
    if !avail.1 then
      ⟨.circuitOpenErr, 0, [], avail.2⟩
    else
      match outcomes attempt with
      | .resp status body =>
        if !responseOk status && 500 ≤ status then
          let cb2 := avail.2.recordFailure (nowAt attempt)
          if attempt < CONFIG.MAX_RETRIES then
            let tr := fetchLoop outcomes nowAt rand fuel (attempt + 1) cb2
            ⟨tr.result, tr.calls + 1, backoffDelay attempt (rand attempt) :: tr.sleeps, tr.breaker⟩
          else
            ⟨.returned status body, 1, [], cb2⟩
        else if !responseOk status then
          ⟨.returned status body, 1, [], avail.2⟩
        else
          ⟨.returned status body, 1, [], avail.2.recordSuccess⟩
      | .netErr isTimeout =>
        let cb2 := avail.2.recordFailure (nowAt attempt)
        if attempt ≥ CONFIG.MAX_RETRIES then
          ⟨.threwErr isTimeout, 1, [], cb2⟩
        else
          let tr := fetchLoop outcomes nowAt rand fuel (attempt + 1) cb2
          ⟨tr.result, tr.calls + 1, backoffDelay attempt (rand attempt) :: tr.sleeps, tr.breaker⟩

/-- `fetchWithRetry`, index.js lines 212-282: the pre-loop availability check
(line 215, clock reading `nowAt 0`) followed by the attempt loop. -/
def fetchWithRetry (outcomes : Nat → UpstreamOutcome) (nowAt : Nat → Nat) (rand : Nat → ℚ)
    (cb : CircuitBreaker) : FetchTrace :=
  let avail := cb.isAvailable (nowAt 0)
  if !avail.1 then
    ⟨.circuitOpenErr, 0, [], avail.2⟩
  else
    fetchLoop outcomes nowAt rand (CONFIG.MAX_RETRIES + 1) 0 avail.2

/-! ### Inbound request / response model -/

/-- The JS value found at the `code` field of the parsed request body: a
string, or any non-string value (number, boolean, object, null, ...). -/
inductive JsVal where
  | str (s : String)
  | nonString
deriving DecidableEq

/-- Result of `JSON.parse` on the request body text: a parse error, or a
parsed value projected onto the only field the worker reads
(`requestBody.code`; `none` also covers a parsed non-object, for which
`(requestBody || {}).code` is undefined). -/
inductive ParsedBody where
  | parseError
  | parsed (code : Option JsVal)
deriving DecidableEq

/-- An inbound HTTP request, restricted to what the worker inspects.
`body = none` models `request.text()` throwing; otherwise the pair carries
the raw text (the worker only uses its length) together with the outcome of
`JSON.parse` on it. -/
structure Request where
  method : String
  path : String
  origin : Option String
  contentType : Option String
  contentLength : Option String
  acrMethod : Option String
  acrHeaders : Option String
  body : Option (String × ParsedBody)
deriving DecidableEq

/-- The worker environment bindings; a missing binding is `none` (the code
treats `undefined` and `""` alike, as falsy). -/
structure Env where
  GOOGLE_CLIENT_ID : Option String
  GOOGLE_CLIENT_SECRET : Option String
deriving DecidableEq

/-- The env check of `handleAuth` line 290:
`!env.GOOGLE_CLIENT_ID || !env.GOOGLE_CLIENT_SECRET` negated. -/
def envOk (env : Env) : Bool :=
  jsTruthyStr env.GOOGLE_CLIENT_ID && jsTruthyStr env.GOOGLE_CLIENT_SECRET

/-- An outbound response, restricted to what the claims inspect: HTTP
status, the `error.code` field of the JSON error envelope (`none` for
success, preflight and the plain-text Not Found response), the
message (error message or plain body text), and the
`Access-Control-Allow-Origin` header when CORS headers are attached. -/
structure Response where
  status : Nat
  errorCode : Option String
  message : Option String
  corsOrigin : Option String
deriving DecidableEq

/-- `createErrorResponse`, index.js lines 119-135 (the `details` and
`requestId` fields of the envelope are not modelled: no claim inspects
them). -/
def createErrorResponse (message : String) (status : Nat) (errorCode : String)
    (origin : Option String) : Response :=
  { status := status
    errorCode := some errorCode
    message := some message
    corsOrigin := some (buildCorsHeaders origin).allowOrigin }

/-- `String.prototype.toLowerCase()` (over the ASCII range, which is all the
worker compares against). -/
def lowerString (s : String) : String :=
  String.mk (s.data.map Char.toLower)

/-- `String.prototype.startsWith(p)` as a character-list prefix test. -/
def startsWithString (s p : String) : Bool :=
  p.data.isPrefixOf s.data

/-- `String.prototype.trim()`: strip leading and trailing whitespace. -/
def trimString (s : String) : String :=
  String.mk (((s.data.dropWhile Char.isWhitespace).reverse.dropWhile Char.isWhitespace).reverse)

/-- `isValidContentType`, index.js lines 138-142: the lower-cased
`Content-Type` header (empty when absent) must start with one of
`CONFIG.VALID_CONTENT_TYPES`. -/
def isValidContentType (ct : Option String) : Bool :=
  let lower := lowerString (ct.getD "")
  CONFIG.VALID_CONTENT_TYPES.any (fun allowed => startsWithString lower allowed)

/-- Digit-prefix accumulator for `jsParseInt`. -/
def digitsVal (ds : List Char) : Nat :=
  ds.foldl (fun acc c => acc * 10 + (c.toNat - 48)) 0

/-- `parseInt(s, 10)`: skip surrounding whitespace, optional sign, then the
longest digit prefix; `none` models `NaN` (no digit found). -/
def jsParseInt (s : String) : Option Int :=
  let cs := (trimString s).data
  let signed : Int × List Char :=
    match cs with
    | '-' :: t => (-1, t)
    | '+' :: t => (1, t)
    | t => (1, t)
  let ds := signed.2.takeWhile Char.isDigit
  if ds.isEmpty then none
  else some (signed.1 * (digitsVal ds : Int))

/-- The fast Content-Length rejection of `handleAuth` lines 327-340: a
present (truthy) header that parses to a number exceeding
`MAX_REQUEST_BODY_SIZE` rejects the request before the body is read. -/
def contentLengthRejects (header : Option String) : Bool :=
  if jsTruthyStr header then
    match jsParseInt (header.getD "") with
    | some n => n > (CONFIG.MAX_REQUEST_BODY_SIZE : Int)
    | none => false
  else
    false

/-- `handleOptions`, index.js lines 164-179: a preflight (all three headers
truthy) gets the CORS header set; otherwise a bare `Allow` response with no
`Access-Control-Allow-Origin` header. -/
def handleOptions (req : Request) : Response :=
  if jsTruthyStr req.origin && jsTruthyStr req.acrMethod && jsTruthyStr req.acrHeaders then
    { status := 200, errorCode := none, message := none,
      corsOrigin := some (buildCorsHeaders req.origin).allowOrigin }
  else
    { status := 200, errorCode := none, message := none, corsOrigin := none }

/-! ### `handleAuth` (index.js lines 285-516) -/

/-- The `errorStatusMap` object literal of `handleAuth` lines 479-486. -/
def errorStatusMap (e : String) : Option Nat :=
  if e = "invalid_request" then some 400
  else if e = "invalid_client" then some 401
  else if e = "invalid_grant" then some 400
  else if e = "unauthorized_client" then some 401
  else if e = "unsupported_grant_type" then some 400
  else if e = "invalid_scope" then some 400
  else none

/-- Line 488: `(tokenData && tokenData.error && errorStatusMap[tokenData.error])
|| tokenResponse.status || 400` — an unmapped or falsy provider error falls
back to the upstream status, and a falsy status (0, i.e. absent) to 400. -/
def mapUpstreamErrorStatus (errField : Option String) (status : Nat) : Nat :=
  let fallback := if status ≠ 0 then status else 400
  match errField with
  | some e => if e = "" then fallback else (errorStatusMap e).getD fallback
  | none => fallback

/-- Line 489: `(tokenData && tokenData.error) || 'GOOGLE_API_ERROR'`. -/
def mapUpstreamErrorCode (errField : Option String) : String :=
  jsOrStr errField "GOOGLE_API_ERROR"

/-- Line 490: `(tokenData && (tokenData.error_description || tokenData.error))
|| 'Failed to fetch tokens from Google'`. -/
def mapUpstreamErrorMessage (td : TokenData) : String :=
  jsOrStr td.error_description (jsOrStr td.error "Failed to fetch tokens from Google")

/-- The observable outcome of dispatching a request: the response, the
number of outbound upstream calls, the delays slept, the final breaker
state, and the sanitized code placed in the upstream token request body
(`none` when the token request was never built). -/
structure AuthResult where
  response : Response
  calls : Nat
  sleeps : List ℚ
  breaker : CircuitBreaker
  sentCode : Option String
deriving DecidableEq

/-- The tail of `handleAuth` from the token request construction (line 400)
onwards: call `fetchWithRetry` and map its outcome to the client response
(lines 414-515).  `sanitizedCode` is the trimmed code placed in the token
request body; it is reported in the result's `sentCode` field. -/
def exchangeTokens (sanitizedCode : String) (origin : String) (cb : CircuitBreaker)
    (outcomes : Nat → UpstreamOutcome) (nowAt : Nat → Nat) (rand : Nat → ℚ) :
    AuthResult :=
  let tr := fetchWithRetry outcomes nowAt rand cb
  let response :=
    match tr.result with
    | .circuitOpenErr =>
      createErrorResponse
        "Service temporarily unavailable due to high error rates. Please try again later."
        503 "SERVICE_UNAVAILABLE" (some origin)
    | .threwErr true =>
      createErrorResponse "Request to authentication service timed out"
        504 "GATEWAY_TIMEOUT" (some origin)
    | .threwErr false =>
      createErrorResponse
        "An internal server error occurred while contacting authentication service"
        502 "BAD_GATEWAY" (some origin)
    | .returned status body =>
      match body with
      | none =>
        createErrorResponse "Invalid response from authentication service"
          502 "BAD_GATEWAY" (some origin)
      | some td =>
        if responseOk status then
          { status := 200, errorCode := none, message := none,
            corsOrigin := some (buildCorsHeaders (some origin)).allowOrigin }
        else
          createErrorResponse (mapUpstreamErrorMessage td)
            (mapUpstreamErrorStatus td.error status)
            (mapUpstreamErrorCode td.error) (some origin)
  ⟨response, tr.calls, tr.sleeps, tr.breaker, some sanitizedCode⟩

/-- Wrap a pure validation-stage response: no upstream call, breaker
untouched. -/
def validationResult (r : Response) (cb : CircuitBreaker) : AuthResult :=
  ⟨r, 0, [], cb, none⟩

/-- `handleAuth`, index.js lines 285-516, as a function of the request, the
environment, the incoming breaker state and the external streams.  The
validation pipeline is translated check by check in source order; the
second body-size check inside `safeParseJSON` (line 149) is subsumed by the
identical check at line 347, which has already returned 413 when it holds. -/
def handleAuth (req : Request) (env : Env) (cb : CircuitBreaker)
    (outcomes : Nat → UpstreamOutcome) (nowAt : Nat → Nat) (rand : Nat → ℚ) : AuthResult :=
  let origin := jsOrStr req.origin CONFIG.ALLOWED_ORIGIN
  if !envOk env then
    validationResult
      (createErrorResponse "Server configuration error" 500 "CONFIGURATION_ERROR" (some origin)) cb
  else if req.method ≠ "POST" then
    validationResult
      (createErrorResponse "Method not allowed" 405 "METHOD_NOT_ALLOWED" (some origin)) cb
  else if !isValidContentType req.contentType then
    validationResult
      (createErrorResponse "Invalid Content-Type. Must be application/json"
        415 "INVALID_CONTENT_TYPE" (some origin)) cb
  else if contentLengthRejects req.contentLength then
    validationResult
      (createErrorResponse "Request body too large" 413 "PAYLOAD_TOO_LARGE" (some origin)) cb
  else
    match req.body with
    | none =>
      validationResult
        (createErrorResponse "Unable to read request body" 400 "BAD_REQUEST" (some origin)) cb
    | some (text, parsedBody) =>
      if text.length > CONFIG.MAX_REQUEST_BODY_SIZE then
        validationResult
          (createErrorResponse "Request body too large" 413 "PAYLOAD_TOO_LARGE" (some origin)) cb
      else
        match parsedBody with
        | .parseError =>
          validationResult
            (createErrorResponse "Invalid JSON format" 400 "INVALID_JSON" (some origin)) cb
        | .parsed codeField =>
          match codeField with
          | some (.str s) =>
            if s = "" then
              validationResult
                (createErrorResponse "Authorization code must be a string"
                  400 "INVALID_CODE_TYPE" (some origin)) cb
            else
              exchangeTokens (trimString s) origin cb outcomes nowAt rand
          | _ =>
            validationResult
              (createErrorResponse "Authorization code must be a string"
                400 "INVALID_CODE_TYPE" (some origin)) cb

/-! ### Worker entry point (`fetch`, index.js lines 519-560) -/

/-- The router: OPTIONS is answered first; only `POST /auth` is delegated to
`handleAuth`; every other path/method combination gets the plain-text 404
(`new URL(request.url)` is modelled by the `path` field directly). -/
def workerFetch (req : Request) (env : Env) (cb : CircuitBreaker)
    (outcomes : Nat → UpstreamOutcome) (nowAt : Nat → Nat) (rand : Nat → ℚ) : AuthResult :=
  let origin := jsOrStr req.origin CONFIG.ALLOWED_ORIGIN
  if req.method = "OPTIONS" then
    ⟨handleOptions req, 0, [], cb, none⟩
  else if req.path = "/auth" && req.method = "POST" then
    handleAuth req env cb outcomes nowAt rand
  else
    ⟨{ status := 404, errorCode := none, message := some "Not Found",
       corsOrigin := some (buildCorsHeaders (some origin)).allowOrigin },
     0, [], cb, none⟩

/-! ### Helper lemmas -/

/-- A status of at least 500 is never `ok`. -/
theorem responseOk_eq_false_of_ge_500 {s : Nat} (h : 500 ≤ s) : responseOk s = false := by
  simp only [responseOk, Bool.and_eq_false_iff]
  right
  simp only [decide_eq_false_iff_not, not_lt]
  omega

/-- While OPEN with the window not yet elapsed, `isAvailable` answers false
and mutates nothing. -/
theorem isAvailable_open_before {cb : CircuitBreaker} (h : cb.state = .OPEN)
    {t : Nat} (hlt : t < cb.openUntil) : cb.isAvailable t = (false, cb) := by
  rcases cb with ⟨st, fc, sc, lft, ou⟩
  simp only at h
  subst h
  simp only [CircuitBreaker.isAvailable]
  rw [if_neg (by simp only at hlt; omega)]

/-- While OPEN with the window elapsed, `isAvailable` answers true and
transitions to HALF_OPEN with `successCount` reset. -/
theorem isAvailable_open_after {cb : CircuitBreaker} (h : cb.state = .OPEN)
    {t : Nat} (hge : cb.openUntil ≤ t) :
    cb.isAvailable t = (true, { cb with state := .HALF_OPEN, successCount := 0 }) := by
  rcases cb with ⟨st, fc, sc, lft, ou⟩
  simp only at h
  subst h
  simp only [CircuitBreaker.isAvailable]
  rw [if_pos (by simp only at hge; omega)]

/-- A request that passes every validation step reduces `handleAuth` to the
upstream exchange stage with the trimmed code. -/
theorem handleAuth_valid_eq (req : Request) (env : Env) (cb : CircuitBreaker)
    (outcomes : Nat → UpstreamOutcome) (nowAt : Nat → Nat) (rand : Nat → ℚ)
    (text : String) (s : String)
    (henv : envOk env = true)
    (hm : req.method = "POST")
    (hct : isValidContentType req.contentType = true)
    (hcl : contentLengthRejects req.contentLength = false)
    (hbody : req.body = some (text, .parsed (some (.str s))))
    (hlen : text.length ≤ CONFIG.MAX_REQUEST_BODY_SIZE)
    (hs : s ≠ "") :
    handleAuth req env cb outcomes nowAt rand
      = exchangeTokens (trimString s) (jsOrStr req.origin CONFIG.ALLOWED_ORIGIN)
          cb outcomes nowAt rand := by
  unfold handleAuth
  rw [henv, hm, hct, hcl, hbody]
  simp [hs, Nat.not_lt.mpr hlen]

/-! ### Claim theorems -/

/-- C10: the CORS headers built by `buildCorsHeaders` are identical for every
pair of request Origins, and the `Access-Control-Allow-Origin` header is
always exactly `CONFIG.ALLOWED_ORIGIN` — an unrecognized caller origin is
never echoed, so the headers carry no information about the request
Origin. -/
theorem C10_cors_origin_constant :
    (∀ o1 o2 : Option String, buildCorsHeaders o1 = buildCorsHeaders o2) ∧
    (∀ o : Option String, (buildCorsHeaders o).allowOrigin = CONFIG.ALLOWED_ORIGIN) := by
  have hall : ∀ o : Option String, (buildCorsHeaders o).allowOrigin = CONFIG.ALLOWED_ORIGIN := by
    intro o
    cases o with
    | none => rfl
    | some s =>
      by_cases hs : s = CONFIG.ALLOWED_ORIGIN <;> simp [buildCorsHeaders, hs]
  have hconst : ∀ o : Option String, buildCorsHeaders o = buildCorsHeaders none := by
    intro o
    cases o with
    | none => rfl
    | some s =>
      by_cases hs : s = CONFIG.ALLOWED_ORIGIN <;> simp [buildCorsHeaders, hs]
  exact ⟨fun o1 o2 => (hconst o1).trans (hconst o2).symm, hall⟩

/-- C9: when `GOOGLE_CLIENT_ID` or `GOOGLE_CLIENT_SECRET` is missing from the
environment, `handleAuth` answers 500 `CONFIGURATION_ERROR` with no upstream
call, regardless of the request method, content type, size or body: the
configuration check precedes every validation step. -/
theorem C9_config_error_first (req : Request) (env : Env) (cb : CircuitBreaker)
    (outcomes : Nat → UpstreamOutcome) (nowAt : Nat → Nat) (rand : Nat → ℚ)
    (h : env.GOOGLE_CLIENT_ID = none ∨ env.GOOGLE_CLIENT_SECRET = none) :
    (handleAuth req env cb outcomes nowAt rand).response.status = 500 ∧
    (handleAuth req env cb outcomes nowAt rand).response.errorCode = some "CONFIGURATION_ERROR" ∧
    (handleAuth req env cb outcomes nowAt rand).calls = 0 ∧
    (handleAuth req env cb outcomes nowAt rand).breaker = cb := by
  have henv : envOk env = false := by
    rcases h with h | h <;> simp [envOk, jsTruthyStr, h]
  simp [handleAuth, henv, validationResult, createErrorResponse]

/-- C9 witness: a GET request with wrong content type and a missing client id
still gets 500 `CONFIGURATION_ERROR`. -/
theorem C9_config_error_first_witness :
    (handleAuth ⟨"GET", "/auth", none, some "text/plain", some "999999", none, none, none⟩
        ⟨none, some "secret"⟩ CircuitBreaker.reset (fun _ => .resp 200 (some ⟨none, none⟩))
        (fun _ => 0) (fun _ => 0)).response.status = 500 ∧
    (handleAuth ⟨"GET", "/auth", none, some "text/plain", some "999999", none, none, none⟩
        ⟨none, some "secret"⟩ CircuitBreaker.reset (fun _ => .resp 200 (some ⟨none, none⟩))
        (fun _ => 0) (fun _ => 0)).response.errorCode = some "CONFIGURATION_ERROR" ∧
    (handleAuth ⟨"GET", "/auth", none, some "text/plain", some "999999", none, none, none⟩
        ⟨none, some "secret"⟩ CircuitBreaker.reset (fun _ => .resp 200 (some ⟨none, none⟩))
        (fun _ => 0) (fun _ => 0)).calls = 0 ∧
    (handleAuth ⟨"GET", "/auth", none, some "text/plain", some "999999", none, none, none⟩
        ⟨none, some "secret"⟩ CircuitBreaker.reset (fun _ => .resp 200 (some ⟨none, none⟩))
        (fun _ => 0) (fun _ => 0)).breaker = CircuitBreaker.reset :=
  C9_config_error_first _ _ _ _ _ _ (Or.inl rfl)

/-- C8: for every attempt `a` and every random draw `r` in `[0, 1)`,
`backoffDelay a r = capped + floor(r * 0.3 * capped)` with
`capped = min(200 * 2^a, 2000)`, hence the delay lies in
`[capped, 1.3 * capped)`. -/
theorem C8_backoff_bound (a : Nat) (r : ℚ) (h0 : 0 ≤ r) (h1 : r < 1) :
    backoffDelay a r
      = min ((200 : ℚ) * 2 ^ a) 2000 + ((⌊r * (3 / 10) * min ((200 : ℚ) * 2 ^ a) 2000⌋ : ℤ) : ℚ) ∧
    min ((200 : ℚ) * 2 ^ a) 2000 ≤ backoffDelay a r ∧
    backoffDelay a r < 13 / 10 * min ((200 : ℚ) * 2 ^ a) 2000 := by
  have hcap : (0 : ℚ) < min ((200 : ℚ) * 2 ^ a) 2000 := by
    apply lt_min
    · positivity
    · norm_num
  set c : ℚ := min ((200 : ℚ) * 2 ^ a) 2000 with hc
  have hdef : backoffDelay a r = c + ((⌊r * (c * (3 / 10))⌋ : ℤ) : ℚ) := by
    unfold backoffDelay
    norm_num [CONFIG.INITIAL_RETRY_DELAY, CONFIG.MAX_RETRY_DELAY, hc]
  have harg : r * (c * (3 / 10)) = r * (3 / 10) * c := by ring
  have hjlo : (0 : ℤ) ≤ ⌊r * (c * (3 / 10))⌋ := by
    apply Int.floor_nonneg.mpr
    have : (0 : ℚ) ≤ c * (3 / 10) := by
      apply mul_nonneg hcap.le
      norm_num
    exact mul_nonneg h0 this
  have hjhi : ((⌊r * (c * (3 / 10))⌋ : ℤ) : ℚ) ≤ r * (c * (3 / 10)) := Int.floor_le _
  refine ⟨?_, ?_, ?_⟩
  · rw [hdef, harg]
  · rw [hdef]
    have hq : (0 : ℚ) ≤ ((⌊r * (c * (3 / 10))⌋ : ℤ) : ℚ) := by exact_mod_cast hjlo
    linarith
  · rw [hdef]
    have hlt : r * (c * (3 / 10)) < 3 / 10 * c := by nlinarith
    linarith

/-- C8 witness: attempt 3 with random draw 0 gives delay
`1600 + floor(0) = 1600` inside the claimed bounds. -/
theorem C8_backoff_bound_witness :
    backoffDelay 3 0
      = min ((200 : ℚ) * 2 ^ 3) 2000 + ((⌊(0 : ℚ) * (3 / 10) * min ((200 : ℚ) * 2 ^ 3) 2000⌋ : ℤ) : ℚ) ∧
    min ((200 : ℚ) * 2 ^ 3) 2000 ≤ backoffDelay 3 0 ∧
    backoffDelay 3 0 < 13 / 10 * min ((200 : ℚ) * 2 ^ 3) 2000 :=
  C8_backoff_bound 3 0 (by norm_num) (by norm_num)

/-- C3: from the initial CLOSED breaker with zero counters, five consecutive
`recordFailure` calls (at arbitrary times, the fifth at `t5`) leave the
breaker OPEN with `openUntil = t5 + resetTimeout`; `isAvailable` answers
false at every time strictly before `openUntil`, and at any time at or past
`openUntil` it answers true and transitions to HALF_OPEN with `successCount`
reset to 0. -/
theorem C3_breaker_trip (t1 t2 t3 t4 t5 t t' : Nat) (cb : CircuitBreaker)
    (hcb : cb = ((((CircuitBreaker.reset.recordFailure t1).recordFailure
      t2).recordFailure t3).recordFailure t4).recordFailure t5)
    (hlt : t < t5 + CONFIG.CIRCUIT_BREAKER_RESET_TIMEOUT)
    (hge : t5 + CONFIG.CIRCUIT_BREAKER_RESET_TIMEOUT ≤ t') :
    cb.state = .OPEN ∧
    cb.openUntil = t5 + CONFIG.CIRCUIT_BREAKER_RESET_TIMEOUT ∧
    (cb.isAvailable t).1 = false ∧
    (cb.isAvailable t').1 = true ∧
    (cb.isAvailable t').2.state = .HALF_OPEN ∧
    (cb.isAvailable t').2.successCount = 0 := by
  have hval : cb = ⟨.OPEN, 5, 0, t5, t5 + CONFIG.CIRCUIT_BREAKER_RESET_TIMEOUT⟩ := by
    rw [hcb]
    rfl
  subst hval
  rw [isAvailable_open_before rfl hlt, isAvailable_open_after rfl hge]
  exact ⟨rfl, rfl, rfl, rfl, rfl, rfl⟩

/-- C3 witness: failures at times 1..4 and 10, probed at time 29 (still open)
and time 30010 (transitions to HALF_OPEN). -/
theorem C3_breaker_trip_witness :
    (((((CircuitBreaker.reset.recordFailure 1).recordFailure 2).recordFailure
        3).recordFailure 4).recordFailure 10).state = .OPEN ∧
    (((((CircuitBreaker.reset.recordFailure 1).recordFailure 2).recordFailure
        3).recordFailure 4).recordFailure 10).openUntil
      = 10 + CONFIG.CIRCUIT_BREAKER_RESET_TIMEOUT ∧
    ((((((CircuitBreaker.reset.recordFailure 1).recordFailure 2).recordFailure
        3).recordFailure 4).recordFailure 10).isAvailable 29).1 = false ∧
    ((((((CircuitBreaker.reset.recordFailure 1).recordFailure 2).recordFailure
        3).recordFailure 4).recordFailure 10).isAvailable 30010).1 = true ∧
    ((((((CircuitBreaker.reset.recordFailure 1).recordFailure 2).recordFailure
        3).recordFailure 4).recordFailure 10).isAvailable 30010).2.state = .HALF_OPEN ∧
    ((((((CircuitBreaker.reset.recordFailure 1).recordFailure 2).recordFailure
        3).recordFailure 4).recordFailure 10).isAvailable 30010).2.successCount = 0 :=
  C3_breaker_trip 1 2 3 4 10 29 30010 _ rfl (by decide) (by decide)

/-- C4: from any HALF_OPEN breaker, a single `recordFailure` at time `now`
re-opens it with a fresh `openUntil = now + resetTimeout`, and the next
HALF_OPEN trial (entered by `isAvailable` once the window has elapsed)
starts with `successCount = 0`: no prior success progress survives. -/
theorem C4_half_open_failure_reopens (cb : CircuitBreaker) (now t : Nat)
    (hs : cb.state = .HALF_OPEN)
    (ht : now + CONFIG.CIRCUIT_BREAKER_RESET_TIMEOUT ≤ t) :
    (cb.recordFailure now).state = .OPEN ∧
    (cb.recordFailure now).openUntil = now + CONFIG.CIRCUIT_BREAKER_RESET_TIMEOUT ∧
    ((cb.recordFailure now).isAvailable t).1 = true ∧
    ((cb.recordFailure now).isAvailable t).2.state = .HALF_OPEN ∧
    ((cb.recordFailure now).isAvailable t).2.successCount = 0 := by
  have hrf : cb.recordFailure now =
      { cb with
        failureCount := cb.failureCount + 1
        lastFailureTime := now
        state := .OPEN
        openUntil := now + CONFIG.CIRCUIT_BREAKER_RESET_TIMEOUT } := by
    simp [CircuitBreaker.recordFailure, hs]
  rw [hrf]
  rw [isAvailable_open_after rfl ht]
  exact ⟨rfl, rfl, rfl, rfl, rfl⟩

/-- C4 witness: a HALF_OPEN breaker with accumulated `successCount = 3`
failing at time 5; the trial admitted at time 30005 starts from
`successCount = 0`. -/
theorem C4_half_open_failure_reopens_witness :
    ((⟨.HALF_OPEN, 2, 3, 0, 0⟩ : CircuitBreaker).recordFailure 5).state = .OPEN ∧
    ((⟨.HALF_OPEN, 2, 3, 0, 0⟩ : CircuitBreaker).recordFailure 5).openUntil
      = 5 + CONFIG.CIRCUIT_BREAKER_RESET_TIMEOUT ∧
    (((⟨.HALF_OPEN, 2, 3, 0, 0⟩ : CircuitBreaker).recordFailure 5).isAvailable 30005).1 = true ∧
    (((⟨.HALF_OPEN, 2, 3, 0, 0⟩ : CircuitBreaker).recordFailure 5).isAvailable 30005).2.state
      = .HALF_OPEN ∧
    (((⟨.HALF_OPEN, 2, 3, 0, 0⟩ : CircuitBreaker).recordFailure 5).isAvailable 30005).2.successCount
      = 0 :=
  C4_half_open_failure_reopens ⟨.HALF_OPEN, 2, 3, 0, 0⟩ 5 30005 rfl (by decide)

/-- C1 counterexample: a GET request to `/auth` with a wrong content type
(and a fully configured environment) is answered by the router with the
plain-text 404 Not Found — not with status 405 and not with error code
METHOD_NOT_ALLOWED as the claim states. -/
theorem C1_counterexample :
    (workerFetch ⟨"GET", "/auth", none, some "text/plain", none, none, none, none⟩
        ⟨some "id", some "secret"⟩ CircuitBreaker.reset
        (fun _ => .resp 200 (some ⟨none, none⟩)) (fun _ => 0) (fun _ => 0)).response.status
      = 404 ∧
    (workerFetch ⟨"GET", "/auth", none, some "text/plain", none, none, none, none⟩
        ⟨some "id", some "secret"⟩ CircuitBreaker.reset
        (fun _ => .resp 200 (some ⟨none, none⟩)) (fun _ => 0) (fun _ => 0)).response.status
      ≠ 405 ∧
    (workerFetch ⟨"GET", "/auth", none, some "text/plain", none, none, none, none⟩
        ⟨some "id", some "secret"⟩ CircuitBreaker.reset
        (fun _ => .resp 200 (some ⟨none, none⟩)) (fun _ => 0) (fun _ => 0)).response.errorCode
      = none ∧
    (workerFetch ⟨"GET", "/auth", none, some "text/plain", none, none, none, none⟩
        ⟨some "id", some "secret"⟩ CircuitBreaker.reset
        (fun _ => .resp 200 (some ⟨none, none⟩)) (fun _ => 0) (fun _ => 0)).response.message
      = some "Not Found" := by
  decide

/-- C1 amended: at the worker entry point, every request whose method is
neither POST nor OPTIONS — including requests to `/auth` — receives the
plain-text 404 Not Found, because the router delegates only `POST /auth` to
`handleAuth`; the method check inside `handleAuth` (unreachable through the
router for non-POST methods) would answer 405 METHOD_NOT_ALLOWED before the
content-type check, for any content type, whenever the environment is
configured. -/
theorem C1_amended (req : Request) (env : Env) (cb : CircuitBreaker)
    (outcomes : Nat → UpstreamOutcome) (nowAt : Nat → Nat) (rand : Nat → ℚ)
    (hm : req.method ≠ "POST") :
    (req.method ≠ "OPTIONS" →
      (workerFetch req env cb outcomes nowAt rand).response.status = 404 ∧
      (workerFetch req env cb outcomes nowAt rand).response.errorCode = none ∧
      (workerFetch req env cb outcomes nowAt rand).response.message = some "Not Found") ∧
    (envOk env = true →
      (handleAuth req env cb outcomes nowAt rand).response.status = 405 ∧
      (handleAuth req env cb outcomes nowAt rand).response.errorCode
        = some "METHOD_NOT_ALLOWED") := by
  constructor
  · intro ho
    simp [workerFetch, ho, hm]
  · intro henv
    simp [handleAuth, henv, hm, validationResult, createErrorResponse]

/-- C1 amended witness: the GET `/auth` request of the counterexample, with
a configured environment. -/
theorem C1_amended_witness :
    ((⟨"GET", "/auth", none, some "text/plain", none, none, none, none⟩ : Request).method
        ≠ "OPTIONS" →
      (workerFetch ⟨"GET", "/auth", none, some "text/plain", none, none, none, none⟩
          ⟨some "id", some "secret"⟩ CircuitBreaker.reset
          (fun _ => .resp 200 (some ⟨none, none⟩)) (fun _ => 0) (fun _ => 0)).response.status
        = 404 ∧
      (workerFetch ⟨"GET", "/auth", none, some "text/plain", none, none, none, none⟩
          ⟨some "id", some "secret"⟩ CircuitBreaker.reset
          (fun _ => .resp 200 (some ⟨none, none⟩)) (fun _ => 0) (fun _ => 0)).response.errorCode
        = none ∧
      (workerFetch ⟨"GET", "/auth", none, some "text/plain", none, none, none, none⟩
          ⟨some "id", some "secret"⟩ CircuitBreaker.reset
          (fun _ => .resp 200 (some ⟨none, none⟩)) (fun _ => 0) (fun _ => 0)).response.message
        = some "Not Found") ∧
    (envOk ⟨some "id", some "secret"⟩ = true →
      (handleAuth ⟨"GET", "/auth", none, some "text/plain", none, none, none, none⟩
          ⟨some "id", some "secret"⟩ CircuitBreaker.reset
          (fun _ => .resp 200 (some ⟨none, none⟩)) (fun _ => 0) (fun _ => 0)).response.status
        = 405 ∧
      (handleAuth ⟨"GET", "/auth", none, some "text/plain", none, none, none, none⟩
          ⟨some "id", some "secret"⟩ CircuitBreaker.reset
          (fun _ => .resp 200 (some ⟨none, none⟩)) (fun _ => 0) (fun _ => 0)).response.errorCode
        = some "METHOD_NOT_ALLOWED") :=
  C1_amended ⟨"GET", "/auth", none, some "text/plain", none, none, none, none⟩
    ⟨some "id", some "secret"⟩ CircuitBreaker.reset
    (fun _ => .resp 200 (some ⟨none, none⟩)) (fun _ => 0) (fun _ => 0) (by decide)

/-- C2 counterexample: a fully valid POST `/auth` request whose code `ab!`
fails the claimed charset/length pattern (length 3, illegal character) is
not rejected with 400 INVALID_CODE_FORMAT: `handleAuth` forwards the code
upstream (one outbound call) and answers 200 on upstream success. -/
theorem C2_counterexample :
    (handleAuth ⟨"POST", "/auth", none, some "application/json", none, none, none,
          some ("\x7b\"code\": \"ab!\"\x7d", .parsed (some (.str "ab!")))⟩
        ⟨some "id", some "secret"⟩ CircuitBreaker.reset
        (fun _ => .resp 200 (some ⟨none, none⟩)) (fun _ => 0) (fun _ => 0)).response.errorCode
      ≠ some "INVALID_CODE_FORMAT" ∧
    (handleAuth ⟨"POST", "/auth", none, some "application/json", none, none, none,
          some ("\x7b\"code\": \"ab!\"\x7d", .parsed (some (.str "ab!")))⟩
        ⟨some "id", some "secret"⟩ CircuitBreaker.reset
        (fun _ => .resp 200 (some ⟨none, none⟩)) (fun _ => 0) (fun _ => 0)).response.status
      = 200 ∧
    (handleAuth ⟨"POST", "/auth", none, some "application/json", none, none, none,
          some ("\x7b\"code\": \"ab!\"\x7d", .parsed (some (.str "ab!")))⟩
        ⟨some "id", some "secret"⟩ CircuitBreaker.reset
        (fun _ => .resp 200 (some ⟨none, none⟩)) (fun _ => 0) (fun _ => 0)).calls = 1 ∧
    (handleAuth ⟨"POST", "/auth", none, some "application/json", none, none, none,
          some ("\x7b\"code\": \"ab!\"\x7d", .parsed (some (.str "ab!")))⟩
        ⟨some "id", some "secret"⟩ CircuitBreaker.reset
        (fun _ => .resp 200 (some ⟨none, none⟩)) (fun _ => 0) (fun _ => 0)).sentCode
      = some "ab!" := by
  decide

/-- C2 amended: `handleAuth` applies no charset/length check to the code.
Every request that passes the earlier validations (configured environment,
POST, valid content type, acceptable sizes, JSON body with a non-empty
string `code`) proceeds directly to the upstream exchange with the trimmed
code — whatever its characters or length — and the validation pipeline never
produces an INVALID_CODE_FORMAT error. -/
theorem C2_amended (req : Request) (env : Env) (cb : CircuitBreaker)
    (outcomes : Nat → UpstreamOutcome) (nowAt : Nat → Nat) (rand : Nat → ℚ)
    (text : String) (s : String)
    (henv : envOk env = true)
    (hm : req.method = "POST")
    (hct : isValidContentType req.contentType = true)
    (hcl : contentLengthRejects req.contentLength = false)
    (hbody : req.body = some (text, .parsed (some (.str s))))
    (hlen : text.length ≤ CONFIG.MAX_REQUEST_BODY_SIZE)
    (hs : s ≠ "") :
    handleAuth req env cb outcomes nowAt rand
      = exchangeTokens (trimString s) (jsOrStr req.origin CONFIG.ALLOWED_ORIGIN)
          cb outcomes nowAt rand ∧
    (handleAuth req env cb outcomes nowAt rand).sentCode = some (trimString s) := by
  have hmain := handleAuth_valid_eq req env cb outcomes nowAt rand text s
    henv hm hct hcl hbody hlen hs
  exact ⟨hmain, by rw [hmain]; rfl⟩

/-- C2 amended witness: the malformed code `ab!` of the counterexample is
forwarded upstream unmodified. -/
theorem C2_amended_witness :
    handleAuth ⟨"POST", "/auth", none, some "application/json", none, none, none,
          some ("\x7b\"code\": \"ab!\"\x7d", .parsed (some (.str "ab!")))⟩
        ⟨some "id", some "secret"⟩ CircuitBreaker.reset
        (fun _ => .resp 200 (some ⟨none, none⟩)) (fun _ => 0) (fun _ => 0)
      = exchangeTokens (trimString "ab!")
          (jsOrStr (none : Option String) CONFIG.ALLOWED_ORIGIN) CircuitBreaker.reset
          (fun _ => .resp 200 (some ⟨none, none⟩)) (fun _ => 0) (fun _ => 0) ∧
    (handleAuth ⟨"POST", "/auth", none, some "application/json", none, none, none,
          some ("\x7b\"code\": \"ab!\"\x7d", .parsed (some (.str "ab!")))⟩
        ⟨some "id", some "secret"⟩ CircuitBreaker.reset
        (fun _ => .resp 200 (some ⟨none, none⟩)) (fun _ => 0) (fun _ => 0)).sentCode
      = some (trimString "ab!") :=
  C2_amended ⟨"POST", "/auth", none, some "application/json", none, none, none,
      some ("\x7b\"code\": \"ab!\"\x7d", .parsed (some (.str "ab!")))⟩
    ⟨some "id", some "secret"⟩ CircuitBreaker.reset
    (fun _ => .resp 200 (some ⟨none, none⟩)) (fun _ => 0) (fun _ => 0)
    "\x7b\"code\": \"ab!\"\x7d" "ab!"
    (by decide) rfl (by decide) (by decide) rfl (by decide) (by decide)

/-- C6 counterexample: with the breaker OPEN and its window expired
(OPEN since time 10 with `openUntil = 40010`, probed at time 50000), a first
attempt answered 400 is returned after exactly one call with no breaker
bookkeeping — yet the final breaker state differs from the initial one: the
availability check itself transitioned it OPEN → HALF_OPEN, so the breaker
state is not left entirely unchanged as the claim states. -/
theorem C6_counterexample :
    (fetchWithRetry (fun _ => .resp 400 none) (fun _ => 50000) (fun _ => 0)
        ⟨.OPEN, 5, 0, 10, 40010⟩).result = .returned 400 none ∧
    (fetchWithRetry (fun _ => .resp 400 none) (fun _ => 50000) (fun _ => 0)
        ⟨.OPEN, 5, 0, 10, 40010⟩).calls = 1 ∧
    (fetchWithRetry (fun _ => .resp 400 none) (fun _ => 50000) (fun _ => 0)
        ⟨.OPEN, 5, 0, 10, 40010⟩).breaker ≠ ⟨.OPEN, 5, 0, 10, 40010⟩ ∧
    (fetchWithRetry (fun _ => .resp 400 none) (fun _ => 50000) (fun _ => 0)
        ⟨.OPEN, 5, 0, 10, 40010⟩).breaker.state = .HALF_OPEN := by
  decide

/-- C6 amended: when the first upstream attempt returns a non-ok response
with status below 500 and the breaker admits the request, `fetchWithRetry`
returns that response immediately after exactly one outbound call, sleeps
no backoff, and performs no `recordFailure` and no `recordSuccess`: the
final breaker state is exactly the state left by the admission check
(`isAvailable`), which is the unchanged initial state whenever the breaker
was CLOSED, but is the HALF_OPEN transition of an OPEN breaker whose window
had expired. -/
theorem C6_amended (cb : CircuitBreaker) (outcomes : Nat → UpstreamOutcome)
    (nowAt : Nat → Nat) (rand : Nat → ℚ) (status : Nat) (body : Option TokenData)
    (hout : outcomes 0 = .resp status body)
    (hok : responseOk status = false)
    (hlt : status < 500)
    (havail : (cb.isAvailable (nowAt 0)).1 = true) :
    fetchWithRetry outcomes nowAt rand cb
      = ⟨.returned status body, 1, [], (cb.isAvailable (nowAt 0)).2⟩ ∧
    (cb.state = .CLOSED → (cb.isAvailable (nowAt 0)).2 = cb) := by
  have h500 : ¬ (500 ≤ status) := Nat.not_le.mpr hlt
  have key : ∀ cb2 : CircuitBreaker, cb2.isAvailable (nowAt 0) = (true, cb2) →
      fetchLoop outcomes nowAt rand (CONFIG.MAX_RETRIES + 1) 0 cb2
        = ⟨.returned status body, 1, [], cb2⟩ := by
    intro cb2 hstable
    unfold fetchLoop
    simp [hstable, hout, hok, h500]
  rcases cb with ⟨st, fc, sc, lft, ou⟩
  cases st with
  | CLOSED =>
    have hstable : CircuitBreaker.isAvailable ⟨.CLOSED, fc, sc, lft, ou⟩ (nowAt 0)
        = (true, ⟨.CLOSED, fc, sc, lft, ou⟩) := rfl
    refine ⟨?_, fun _ => by rw [hstable]⟩
    unfold fetchWithRetry
    simp only [hstable]
    simpa using key _ hstable
  | OPEN =>
    by_cases hw : ou ≤ nowAt 0
    · have htrans := @isAvailable_open_after ⟨.OPEN, fc, sc, lft, ou⟩ rfl (nowAt 0) hw
      have hstable : CircuitBreaker.isAvailable ⟨.HALF_OPEN, fc, 0, lft, ou⟩ (nowAt 0)
          = (true, ⟨.HALF_OPEN, fc, 0, lft, ou⟩) := rfl
      refine ⟨?_, fun hcl => by simp at hcl⟩
      unfold fetchWithRetry
      rw [htrans]
      simpa [htrans] using key _ hstable
    · have hfalse := @isAvailable_open_before ⟨.OPEN, fc, sc, lft, ou⟩ rfl (nowAt 0)
        (Nat.lt_of_not_le hw)
      rw [hfalse] at havail
      simp at havail
  | HALF_OPEN =>
    have hstable : CircuitBreaker.isAvailable ⟨.HALF_OPEN, fc, sc, lft, ou⟩ (nowAt 0)
        = (true, ⟨.HALF_OPEN, fc, sc, lft, ou⟩) := rfl
    refine ⟨?_, fun hcl => by simp at hcl⟩
    unfold fetchWithRetry
    simp only [hstable]
    simpa using key _ hstable

/-- C6 amended witness: a CLOSED breaker with two prior failures and a first
attempt answered 400: one call, no sleeps, breaker exactly unchanged. -/
theorem C6_amended_witness :
    fetchWithRetry (fun _ => .resp 400 (some ⟨some "invalid_grant", none⟩)) (fun _ => 7)
        (fun _ => 0) ⟨.CLOSED, 2, 0, 3, 0⟩
      = ⟨.returned 400 (some ⟨some "invalid_grant", none⟩), 1, [],
         ((⟨.CLOSED, 2, 0, 3, 0⟩ : CircuitBreaker).isAvailable ((fun _ => 7) 0)).2⟩ ∧
    ((⟨.CLOSED, 2, 0, 3, 0⟩ : CircuitBreaker).state = .CLOSED →
      ((⟨.CLOSED, 2, 0, 3, 0⟩ : CircuitBreaker).isAvailable ((fun _ => 7) 0)).2
        = ⟨.CLOSED, 2, 0, 3, 0⟩) :=
  C6_amended ⟨.CLOSED, 2, 0, 3, 0⟩ (fun _ => .resp 400 (some ⟨some "invalid_grant", none⟩))
    (fun _ => 7) (fun _ => 0) 400 (some ⟨some "invalid_grant", none⟩)
    rfl (by decide) (by decide) (by decide)

/-- C5: from a CLOSED breaker with zero failures, when every upstream
attempt answers a status of at least 500, `fetchWithRetry` makes exactly
`MAX_RETRIES + 1 = 3` outbound calls, records one breaker failure per
attempt (final `failureCount = 3`, still CLOSED), sleeps one backoff delay
between consecutive attempts, and returns the final 5xx response itself
rather than throwing. -/
theorem C5_retry_exhaustion (cb : CircuitBreaker) (outcomes : Nat → UpstreamOutcome)
    (nowAt : Nat → Nat) (rand : Nat → ℚ) (s : Nat → Nat) (b : Nat → Option TokenData)
    (hst : cb.state = .CLOSED) (hfc : cb.failureCount = 0)
    (hout : ∀ i, outcomes i = .resp (s i) (b i))
    (h500 : ∀ i, 500 ≤ s i) :
    fetchWithRetry outcomes nowAt rand cb
      = ⟨.returned (s 2) (b 2), 3, [backoffDelay 0 (rand 0), backoffDelay 1 (rand 1)],
         { cb with failureCount := 3, lastFailureTime := nowAt 2 }⟩ := by
  have hok0 := responseOk_eq_false_of_ge_500 (h500 0)
  have hok1 := responseOk_eq_false_of_ge_500 (h500 1)
  have hok2 := responseOk_eq_false_of_ge_500 (h500 2)
  rcases cb with ⟨st, fc, sc, lft, ou⟩
  have hst' : st = .CLOSED := hst
  have hfc' : fc = 0 := hfc
  subst hst'
  subst hfc'
  have h2 : fetchLoop outcomes nowAt rand 1 2 ⟨.CLOSED, 2, sc, nowAt 1, ou⟩
      = ⟨.returned (s 2) (b 2), 1, [], ⟨.CLOSED, 3, sc, nowAt 2, ou⟩⟩ := by
    unfold fetchLoop
    simp [CircuitBreaker.isAvailable, CircuitBreaker.recordFailure, hout 2, hok2, h500 2,
      CONFIG.MAX_RETRIES, CONFIG.CIRCUIT_BREAKER_FAILURE_THRESHOLD]
  have h1 : fetchLoop outcomes nowAt rand 2 1 ⟨.CLOSED, 1, sc, nowAt 0, ou⟩
      = ⟨.returned (s 2) (b 2), 2, [backoffDelay 1 (rand 1)],
         ⟨.CLOSED, 3, sc, nowAt 2, ou⟩⟩ := by
    unfold fetchLoop
    simp [CircuitBreaker.isAvailable, CircuitBreaker.recordFailure, hout 1, hok1, h500 1,
      CONFIG.MAX_RETRIES, CONFIG.CIRCUIT_BREAKER_FAILURE_THRESHOLD, h2]
  have h0 : fetchLoop outcomes nowAt rand 3 0 ⟨.CLOSED, 0, sc, lft, ou⟩
      = ⟨.returned (s 2) (b 2), 3, [backoffDelay 0 (rand 0), backoffDelay 1 (rand 1)],
         ⟨.CLOSED, 3, sc, nowAt 2, ou⟩⟩ := by
    unfold fetchLoop
    simp [CircuitBreaker.isAvailable, CircuitBreaker.recordFailure, hout 0, hok0, h500 0,
      CONFIG.MAX_RETRIES, CONFIG.CIRCUIT_BREAKER_FAILURE_THRESHOLD, h1]
  unfold fetchWithRetry
  simp [CircuitBreaker.isAvailable, CONFIG.MAX_RETRIES, h0]

/-- C5 witness: a fresh breaker against an upstream that always answers 500
with an unparseable body. -/
theorem C5_retry_exhaustion_witness :
    fetchWithRetry (fun _ => .resp 500 none) (fun _ => 0) (fun _ => 0) CircuitBreaker.reset
      = ⟨.returned ((fun _ : Nat => 500) 2) ((fun _ : Nat => (none : Option TokenData)) 2), 3,
         [backoffDelay 0 ((fun _ : Nat => (0 : ℚ)) 0), backoffDelay 1 ((fun _ : Nat => (0 : ℚ)) 1)],
         { CircuitBreaker.reset with failureCount := 3, lastFailureTime := (fun _ : Nat => 0) 2 }⟩ :=
  C5_retry_exhaustion CircuitBreaker.reset (fun _ => .resp 500 none) (fun _ => 0) (fun _ => 0)
    (fun _ => 500) (fun _ => none) rfl rfl (fun _ => rfl) (fun _ => le_refl 500)

/-- C7: when the upstream token endpoint answers non-ok with a parseable
JSON body, the client response carries the mapped status
(`mapUpstreamErrorStatus`) and the provider error string as error code
(`mapUpstreamErrorCode`), where the mapping sends `invalid_request`,
`invalid_grant`, `unsupported_grant_type` and `invalid_scope` to 400,
`invalid_client` and `unauthorized_client` to 401, any other provider error
to the original upstream status (defaulting to 400 when absent, i.e. 0),
and the error code is the provider error string, or `GOOGLE_API_ERROR` when
none is present. -/
theorem C7_upstream_error_mapping (req : Request) (env : Env) (cb : CircuitBreaker)
    (outcomes : Nat → UpstreamOutcome) (nowAt : Nat → Nat) (rand : Nat → ℚ)
    (text : String) (s : String) (status : Nat) (td : TokenData)
    (henv : envOk env = true)
    (hm : req.method = "POST")
    (hct : isValidContentType req.contentType = true)
    (hcl : contentLengthRejects req.contentLength = false)
    (hbody : req.body = some (text, .parsed (some (.str s))))
    (hlen : text.length ≤ CONFIG.MAX_REQUEST_BODY_SIZE)
    (hs : s ≠ "")
    (htr : (fetchWithRetry outcomes nowAt rand cb).result = .returned status (some td))
    (hnotok : responseOk status = false) :
    (handleAuth req env cb outcomes nowAt rand).response.status
      = mapUpstreamErrorStatus td.error status ∧
    (handleAuth req env cb outcomes nowAt rand).response.errorCode
      = some (mapUpstreamErrorCode td.error) ∧
    mapUpstreamErrorStatus (some "invalid_request") status = 400 ∧
    mapUpstreamErrorStatus (some "invalid_grant") status = 400 ∧
    mapUpstreamErrorStatus (some "unsupported_grant_type") status = 400 ∧
    mapUpstreamErrorStatus (some "invalid_scope") status = 400 ∧
    mapUpstreamErrorStatus (some "invalid_client") status = 401 ∧
    mapUpstreamErrorStatus (some "unauthorized_client") status = 401 ∧
    (∀ e : String,
      e ∉ (["invalid_request", "invalid_client", "invalid_grant", "unauthorized_client",
        "unsupported_grant_type", "invalid_scope"] : List String) → e ≠ "" →
      mapUpstreamErrorStatus (some e) status = if status ≠ 0 then status else 400) ∧
    (∀ e : String, e ≠ "" → mapUpstreamErrorCode (some e) = e) ∧
    mapUpstreamErrorCode none = "GOOGLE_API_ERROR" := by
  have hmain := handleAuth_valid_eq req env cb outcomes nowAt rand text s
    henv hm hct hcl hbody hlen hs
  refine ⟨?_, ?_, ?_, ?_, ?_, ?_, ?_, ?_, ?_, ?_, ?_⟩
  · rw [hmain]
    simp [exchangeTokens, htr, hnotok, createErrorResponse]
  · rw [hmain]
    simp [exchangeTokens, htr, hnotok, createErrorResponse]
  · simp [mapUpstreamErrorStatus, errorStatusMap]
  · simp [mapUpstreamErrorStatus, errorStatusMap]
  · simp [mapUpstreamErrorStatus, errorStatusMap]
  · simp [mapUpstreamErrorStatus, errorStatusMap]
  · simp [mapUpstreamErrorStatus, errorStatusMap]
  · simp [mapUpstreamErrorStatus, errorStatusMap]
  · intro e he hne
    simp only [List.mem_cons, List.not_mem_nil, or_false, not_or] at he
    obtain ⟨h1, h2, h3, h4, h5, h6⟩ := he
    simp [mapUpstreamErrorStatus, errorStatusMap, h1, h2, h3, h4, h5, h6, hne]
  · intro e hne
    simp [mapUpstreamErrorCode, jsOrStr, hne]
  · rfl

/-- C7 witness: a valid request whose upstream exchange is answered 403 with
the structured OAuth error `invalid_grant`: the client response is 400 with
error code `invalid_grant`. -/
theorem C7_upstream_error_mapping_witness :
    (handleAuth ⟨"POST", "/auth", none, some "application/json", none, none, none,
          some ("\x7b\"code\": \"abc123XYZ_-0000\"\x7d",
            .parsed (some (.str "abc123XYZ_-0000")))⟩
        ⟨some "id", some "secret"⟩ CircuitBreaker.reset
        (fun _ => .resp 403 (some ⟨some "invalid_grant", some "bad"⟩))
        (fun _ => 0) (fun _ => 0)).response.status
      = mapUpstreamErrorStatus (TokenData.mk (some "invalid_grant") (some "bad")).error 403 ∧
    (handleAuth ⟨"POST", "/auth", none, some "application/json", none, none, none,
          some ("\x7b\"code\": \"abc123XYZ_-0000\"\x7d",
            .parsed (some (.str "abc123XYZ_-0000")))⟩
        ⟨some "id", some "secret"⟩ CircuitBreaker.reset
        (fun _ => .resp 403 (some ⟨some "invalid_grant", some "bad"⟩))
        (fun _ => 0) (fun _ => 0)).response.errorCode
      = some (mapUpstreamErrorCode (TokenData.mk (some "invalid_grant") (some "bad")).error) ∧
    mapUpstreamErrorStatus (some "invalid_request") 403 = 400 ∧
    mapUpstreamErrorStatus (some "invalid_grant") 403 = 400 ∧
    mapUpstreamErrorStatus (some "unsupported_grant_type") 403 = 400 ∧
    mapUpstreamErrorStatus (some "invalid_scope") 403 = 400 ∧
    mapUpstreamErrorStatus (some "invalid_client") 403 = 401 ∧
    mapUpstreamErrorStatus (some "unauthorized_client") 403 = 401 ∧
    (∀ e : String,
      e ∉ (["invalid_request", "invalid_client", "invalid_grant", "unauthorized_client",
        "unsupported_grant_type", "invalid_scope"] : List String) → e ≠ "" →
      mapUpstreamErrorStatus (some e) 403 = if (403 : Nat) ≠ 0 then 403 else 400) ∧
    (∀ e : String, e ≠ "" → mapUpstreamErrorCode (some e) = e) ∧
    mapUpstreamErrorCode none = "GOOGLE_API_ERROR" :=
  C7_upstream_error_mapping
    ⟨"POST", "/auth", none, some "application/json", none, none, none,
      some ("\x7b\"code\": \"abc123XYZ_-0000\"\x7d", .parsed (some (.str "abc123XYZ_-0000")))⟩
    ⟨some "id", some "secret"⟩ CircuitBreaker.reset
    (fun _ => .resp 403 (some ⟨some "invalid_grant", some "bad"⟩)) (fun _ => 0) (fun _ => 0)
    "\x7b\"code\": \"abc123XYZ_-0000\"\x7d" "abc123XYZ_-0000" 403
    ⟨some "invalid_grant", some "bad"⟩
    (by decide) rfl (by decide) (by decide) rfl (by decide) (by decide) rfl (by decide)

end Ges
